import Mathlib

/-
Verification development for the concentrate-llm-lab repository.

The Python sources under src/ are shallowly embedded as Lean definitions:

  * src/client.py   — ConcentrateClient.__init__, chat_completion (request
    translation, tenacity retry loop, response normalization, error-detail
    construction) and test_connection.
  * src/experiments.py — experiment_2_parameter_exploration's record
    accumulation and print_summary's tally.

Conventions of the embedding:
  * Python str is Lean String; a Python dict read with .get(k, default) is
    modelled as an association list or a structure with Option fields.
  * Python float parameters (temperature, top_p, elapsed time) are modelled
    as rationals; the concrete values appearing in the sources (0.0, 0.5,
    0.7, 1.0, 1.5) are all exactly representable, so no rounding questions
    arise.
  * Exceptions are modelled with Except.  The httpx-level exception types
    (HTTPStatusError, RequestError) and the repository's APIRequestError are
    separate constructors, because tenacity's retry predicate distinguishes
    them by type.
  * Wall-clock time and the backoff sleeps are external effects: the
    transport oracle returns the elapsed seconds of each attempt, and the
    sleep between retries is not modelled (no claim depends on it).
  * The ValueError raised by ConcentrateClient.__init__ for a missing key is
    the specification's ConfigError; APIRequestError is the specification's
    RequestFailed; chat_completion is execute; test_connection is probe.
-/

set_option maxRecDepth 4096

namespace ConcentrateLab

/-- The float 0.5 as a rational in lowest terms, written as an explicit
numerator-denominator pair so that the kernel can evaluate comparisons on
it (field-arithmetic spellings of rationals do not reduce definitionally). -/
def qhalf : ℚ := ⟨1, 2, by decide, by decide⟩

/-- The float 1.5 as a rational in lowest terms. -/
def q32 : ℚ := ⟨3, 2, by decide, by decide⟩

/-- The float 0.7 - the default temperature of chat_completion - as a
rational in lowest terms. -/
def q710 : ℚ := ⟨7, 10, by decide, by decide⟩

/-- A chat message as consumed by chat_completion (client.py lines 73-76):
a Python dict read with msg.get, so both fields may be absent. -/
structure Message where
  role : Option String
  content : Option String
deriving DecidableEq

/-- Rendering of one message into an element of input_parts
(client.py lines 74-83): messages with empty content are skipped, role
system and assistant get a textual tag, every other role is verbatim. -/
def msg_part (msg : Message) : Option String :=
  let role := msg.role.getD "user"
  let content := msg.content.getD ""
  if content = "" then none
  else if role = "system" then some ("System: " ++ content)
  else if role = "assistant" then some ("Assistant: " ++ content)
  else some content

/-- The flattened prompt text input_text (client.py lines 73-85). -/
def input_text (messages : List Message) : String :=
  String.intercalate "\n" (messages.filterMap msg_part)

/-- Rendering of one message as the specification words it: role system is
tagged, role assistant is tagged, any other or unspecified role is emitted
verbatim, and empty-content messages are skipped.  Stated independently of
msg_part so that their agreement is a theorem, not a definition. -/
def spec_part (msg : Message) : Option String :=
  if msg.content.getD "" = "" then none
  else
    match msg.role with
    | some "system" => some ("System: " ++ msg.content.getD "")
    | some "assistant" => some ("Assistant: " ++ msg.content.getD "")
    | _ => some (msg.content.getD "")

/-- Python's str.split with a one-character separator: keeps empty chunks,
and splitting the empty string yields one empty chunk. -/
def pySplit (sep : Char) : List Char → List (List Char)
  | [] => [[]]
  | c :: rest =>
    if c = sep then [] :: pySplit sep rest
    else
      match pySplit sep rest with
      | [] => [[c]]
      | h :: t => (c :: h) :: t

/-- The model-identifier stripping of client.py line 71:
model.split on the slash, last chunk, but only when a slash occurs. -/
def strip_model (model : String) : String :=
  if '/' ∈ model.data then String.mk ((pySplit '/' model.data).getLastD []) else model

/-- JSON-ish values appearing in the outbound payload dict. -/
inductive Value where
  | str (s : String)
  | rat (q : ℚ)
  | nat (n : Nat)
  | bool (b : Bool)
deriving DecidableEq

/-- Lookup in the payload dict, modelled as first match in an association
list (keys are unique in every payload the code builds). -/
def dict_lookup (k : String) : List (String × Value) → Option Value
  | [] => none
  | e :: t => if k = e.1 then some e.2 else dict_lookup k t

/-- The outbound payload of client.py lines 87-98: model, input and
temperature always; max_output_tokens and top_p only when the argument is
not None; stream only when it is truthy. -/
def payload (model : String) (messages : List Message) (temperature : ℚ)
    (max_tokens : Option Nat) (top_p : Option ℚ) (stream : Bool) :
    List (String × Value) :=
  [("model", Value.str (strip_model model)),
   ("input", Value.str (input_text messages)),
   ("temperature", Value.rat temperature)]
  ++ (match max_tokens with
      | some n => [("max_output_tokens", Value.nat n)]
      | none => [])
  ++ (match top_p with
      | some q => [("top_p", Value.rat q)]
      | none => [])
  ++ (if stream then [("stream", Value.bool true)] else [])

/-- Decoded JSON values, used for HTTP-error response bodies
(client.py lines 149-153). -/
inductive Json where
  | str (s : String)
  | num (n : ℤ)
  | bool (b : Bool)
  | null
  | arr (xs : List Json)
  | obj (fields : List (String × Json))

/-- Python repr of a decoded JSON value (strings are quoted).  Only the
scalar cases are exercised by any verified statement; the container cases
follow Python's rendering of lists and dicts of such values. -/
def pyRepr : Json → String
  | .str s => "\x27" ++ s ++ "\x27"
  | .num n => toString n
  | .bool b => if b then "True" else "False"
  | .null => "None"
  | .arr xs => "[" ++ String.intercalate ", " (xs.attach.map (fun x => pyRepr x.1)) ++ "]"
  | .obj fields =>
      "\x7b" ++
        String.intercalate ", "
          (fields.attach.map (fun f => pyRepr (.str f.1.1) ++ ": " ++ pyRepr f.1.2))
        ++ "\x7d"
decreasing_by
  · have := List.sizeOf_lt_of_mem x.2; simp at this ⊢; omega
  · obtain ⟨⟨k, v⟩, hf⟩ := f
    have := List.sizeOf_lt_of_mem hf
    simp at this ⊢
    omega
  · obtain ⟨⟨k, v⟩, hf⟩ := f
    have := List.sizeOf_lt_of_mem hf
    simp at this ⊢
    omega

/-- Python str of a decoded JSON value, as interpolated by the f-string of
client.py line 151. -/
def pyStr : Json → String
  | .str s => s
  | .num n => toString n
  | .bool b => if b then "True" else "False"
  | .null => "None"
  | .arr xs => pyRepr (.arr xs)
  | .obj fields => pyRepr (.obj fields)

/-- Whether a decoded JSON value is an object - the only shape on which
Python's dict .get attribute lookup succeeds. -/
def Json.isObjB : Json → Bool
  | .obj _ => true
  | _ => false

/-- First-match lookup in a decoded JSON object (Python dict .get). -/
def json_lookup (k : String) : List (String × Json) → Option Json
  | [] => none
  | f :: t => if k = f.1 then some f.2 else json_lookup k t

/-- The try-block of client.py lines 149-151 building the error suffix from
the parsed body.  It fails (Except.error) exactly where Python raises inside
the try: when response.json() itself raises (body is None here), and when
the AttributeError of calling .get on a non-dict value is raised — that is,
when the parsed body or its error field is not a JSON object. -/
def error_detail_try (body : Option Json) : Except Unit String :=
  match body with
  | none => .error ()
  | some (.obj fields) =>
    match (json_lookup "error" fields).getD (.obj []) with
    | .obj efields => .ok (pyStr ((json_lookup "message" efields).getD (.str "Unknown error")))
    | _ => .error ()
  | some _ => .error ()

/-- Error-detail construction of client.py lines 148-153: status prefix,
then the extracted message, falling back to the raw response text when the
try-block raises. -/
def error_detail (status : Nat) (text : String) (body : Option Json) : String :=
  match error_detail_try body with
  | .ok d => "HTTP " ++ toString status ++ ": " ++ d
  | .error _ => "HTTP " ++ toString status ++ ": " ++ text

/-- Fields of a successful response body that chat_completion reads
(client.py lines 111-121): result.get of output, text, content, and the
usage dict (absent usage is the empty dict). -/
structure RawResponse where
  output : Option String
  text : Option String
  content : Option String
  usage : List (String × Nat)

/-- Python dict .get with a default on the usage dict. -/
def uget (u : List (String × Nat)) (k : String) (d : Nat) : Nat :=
  match u with
  | [] => d
  | e :: t => if k = e.1 then e.2 else uget t k d

/-- The usage block copied into the result envelope (client.py 130-134). -/
structure Usage where
  prompt_tokens : Nat
  completion_tokens : Nat
  total_tokens : Nat
deriving DecidableEq

/-- The metrics dict of client.py lines 116-121. -/
structure Metrics where
  latency_ms : ℚ
  prompt_tokens : Nat
  completion_tokens : Nat
  total_tokens : Nat
deriving DecidableEq

/-- Python round(x, 2) as used for latency_ms (client.py line 117).  Python
rounds half to even; the difference to half-up rounding is confined to exact
half-hundredths and no verified statement depends on it. -/
def round2 (q : ℚ) : ℚ := (round (q * 100) : ℚ) / 100

/-- The result envelope of client.py lines 123-138.  The single choice's
message content is the content field; choices always has exactly one
element, so only the content is carried. -/
structure FormattedResult where
  content : String
  usage : Usage
  model : String
  metrics : Metrics
  raw_response : RawResponse

/-- The normalizer: client.py lines 111-138.  Output text tries output,
then text, then content; token counts accept both naming schemes per field,
except that the total_tokens fallback sum reads only the prompt_tokens and
completion_tokens keys (line 120, exactly as written). -/
def formatted_result (model : String) (result : RawResponse) (elapsed : ℚ) :
    FormattedResult :=
  let output_text := ((result.output.orElse fun _ => result.text).orElse fun _ => result.content).getD ""
  let u := result.usage
  let prompt_tokens := uget u "prompt_tokens" (uget u "input_tokens" 0)
  let completion_tokens := uget u "completion_tokens" (uget u "output_tokens" 0)
  let total_tokens := uget u "total_tokens" (uget u "prompt_tokens" 0 + uget u "completion_tokens" 0)
  { content := output_text,
    usage := ⟨prompt_tokens, completion_tokens, total_tokens⟩,
    model := model,
    metrics := ⟨round2 (elapsed * 1000), prompt_tokens, completion_tokens, total_tokens⟩,
    raw_response := result }

/-- The httpx-level failures a transport can produce for one attempt:
an HTTP status failure carrying the response (status, text, parsed JSON
body when parsing succeeds), a network-level request failure, or any other
exception inside the try-block. -/
inductive TransportError where
  | statusError (status : Nat) (text : String) (body : Option Json)
  | requestError (msg : String)
  | otherError (msg : String)

/-- Exceptions as seen by the tenacity decorator around chat_completion.
The retry predicate of client.py line 57 distinguishes httpx exception
types from the repository's own APIRequestError, so all four kinds are
modelled. -/
inductive PyError where
  | httpStatusError (status : Nat) (text : String) (body : Option Json)
  | httpRequestError (msg : String)
  | apiRequestError (detail : String)
  | otherPyError (msg : String)

/-- The retry predicate of client.py line 57, tenacity's
retry_if_exception_type applied to httpx.HTTPStatusError and
httpx.RequestError: true exactly on those two exception types. -/
def retryable : PyError → Bool
  | .httpStatusError _ _ _ => true
  | .httpRequestError _ => true
  | .apiRequestError _ => false
  | .otherPyError _ => false

/-- A transport oracle: given the outbound payload and the attempt number
(attempts count from 1), either the parsed successful response body with
the elapsed seconds of that attempt, or an httpx-level failure. -/
def Transport : Type :=
  List (String × Value) → Nat → Except TransportError (RawResponse × ℚ)

/-- The request arguments of chat_completion (client.py lines 60-67). -/
structure CompletionRequest where
  model : String
  messages : List Message
  temperature : ℚ
  max_tokens : Option Nat
  top_p : Option ℚ
  stream : Bool

/-- The outbound payload built by chat_completion for a request. -/
def request_payload (req : CompletionRequest) : List (String × Value) :=
  payload req.model req.messages req.temperature req.max_tokens req.top_p req.stream

/-- One execution of chat_completion's body (client.py lines 69-164),
without the tenacity wrapper: a successful transport result is normalized
into the envelope; every httpx or unexpected exception is caught by the
except-clauses of lines 147-164 and re-raised as APIRequestError. -/
def request_once (req : CompletionRequest) (t : Transport) (attempt : Nat) :
    Except PyError FormattedResult :=
  match t (request_payload req) attempt with
  | .ok (result, elapsed) => .ok (formatted_result req.model result elapsed)
  | .error (.statusError st txt body) => .error (.apiRequestError (error_detail st txt body))
  | .error (.requestError m) => .error (.apiRequestError ("Request failed: " ++ m))
  | .error (.otherError m) => .error (.apiRequestError ("Unexpected error: " ++ m))

/-- Tenacity's attempt loop for stop_after_attempt together with the retry
predicate and reraise: run the body; on an exception matching the predicate
retry while attempts remain, otherwise re-raise the exception.  The
exponential backoff sleep between attempts is a pure delay and is not
modelled.  The fuel argument counts the retries still allowed. -/
def tenacity_loop (req : CompletionRequest) (t : Transport) :
    Nat → Nat → Except PyError FormattedResult
  | attempt, 0 => request_once req t attempt
  | attempt, fuel + 1 =>
    match request_once req t attempt with
    | .ok r => .ok r
    | .error e => if retryable e then tenacity_loop req t (attempt + 1) fuel else .error e

/-- The decorated chat_completion (client.py lines 54-164):
stop_after_attempt 3 means the first attempt plus at most two retries. -/
def chat_completion (req : CompletionRequest) (t : Transport) :
    Except PyError FormattedResult :=
  tenacity_loop req t 1 2

/-- The request issued by test_connection (client.py lines 170-175), for a
given configured OPENAI_MODELS list: its head, or the hard-coded fallback
when the list is empty; the fixed greeting; max_tokens 10; and the default
temperature 0.7 of chat_completion. -/
def connection_request (models : List String) : CompletionRequest :=
  { model := models.headD "openai/gpt-4o-mini",
    messages := [{ role := some "user", content := some "Say hello" }],
    temperature := q710,
    max_tokens := some 10,
    top_p := none,
    stream := false }

/-- The connectivity probe test_connection (client.py lines 166-179).  The
envelope always carries exactly one choice, so the truthiness of the
Python expression on line 176 reduces to the content being non-empty; any
exception is caught and yields false. -/
def test_connection (models : List String) (t : Transport) : Bool :=
  match chat_completion (connection_request models) t with
  | .ok r => r.content != ""
  | .error _ => false

/-- The client state established by ConcentrateClient.__init__
(client.py lines 34-52). -/
structure ClientState where
  api_key : String
  base_url : String
deriving DecidableEq

/-- Python's or-chaining on an optional string argument with a string
fallback: the argument wins exactly when it is present and truthy
(non-empty). -/
def py_or (explicit : Option String) (fallback : String) : String :=
  match explicit with
  | none => fallback
  | some s => if s = "" then fallback else s

/-- Python str.rstrip with a slash, as applied to the base URL. -/
def rstrip_slashes (s : String) : String :=
  String.mk ((s.data.reverse.dropWhile (fun c => c = '/')).reverse)

/-- The default base URL of src/config.py. -/
def default_base_url : String := "https://api.concentrate.ai/v1"

/-- ConcentrateClient.__init__ (client.py lines 34-52): resolve the key and
base URL against the environment-sourced settings with Python or-clauses,
then raise ValueError — the specification's ConfigError — when the
resolved key is falsy (the empty string).  The function is pure: it never
touches a transport, so no network activity can precede the error. -/
def client_init (api_key : Option String) (base_url : Option String)
    (env_api_key : String) (env_base_url : String) : Except String ClientState :=
  let key := py_or api_key env_api_key
  let url := rstrip_slashes (py_or base_url env_base_url)
  if key = "" then
    .error "API key is required. Set CONCENTRATE_API_KEY environment variable."
  else
    .ok { api_key := key, base_url := url }

/-- The fields of a parameter-exploration record that vary across the
phase (experiments.py lines 120-131 and 153-163); the constant fields
(experiment name, model, prompt, timestamp) are omitted.  No failure
variant exists because the phase appends no record on failure. -/
structure E2Record where
  parameter : String
  value : ℚ
  response : String
deriving DecidableEq

/-- The temperature grid of experiments.py line 104. -/
def temperatures : List ℚ := [0, qhalf, 1, q32]

/-- The max_tokens grid of experiments.py line 139. -/
def max_tokens_values : List Nat := [50, 150, 300]

/-- The fallback test model of experiments.py line 102. -/
def e2_test_model : String := "openai/gpt-4o-mini"

/-- The base prompt of experiments.py line 101. -/
def e2_base_prompt : String := "Write a creative short story about a robot learning to paint."

/-- The detail prompt of experiments.py line 145. -/
def e2_detail_prompt : String := "Explain machine learning in detail."

/-- The record accumulation of experiment_2_parameter_exploration
(experiments.py lines 95-172): the temperature loop issues one call per
grid value at max_tokens 200, the max_tokens loop one call per grid value
at temperature 0.7; a successful call appends one record with the choice
content as response, while the except-branches of lines 136-138 and
168-169 only print the error and append nothing. -/
def experiment_2_parameter_exploration (t : Transport) : List E2Record :=
  (temperatures.filterMap fun temp =>
    match chat_completion
        { model := e2_test_model,
          messages := [{ role := some "user", content := some e2_base_prompt }],
          temperature := temp,
          max_tokens := some 200,
          top_p := none,
          stream := false } t with
    | .ok result => some ⟨"temperature", temp, result.content⟩
    | .error _ => none)
  ++ (max_tokens_values.filterMap fun mt =>
    match chat_completion
        { model := e2_test_model,
          messages := [{ role := some "user", content := some e2_detail_prompt }],
          temperature := q710,
          max_tokens := some mt,
          top_p := none,
          stream := false } t with
    | .ok result => some ⟨"max_tokens", (mt : ℚ), result.content⟩
    | .error _ => none)

/-- The fields of an accumulated result record that print_summary reads
(experiments.py lines 431-440): the experiment key, possibly absent, and
whether an error key is present. -/
structure ResultRecord where
  experiment : Option String
  error : Option String
deriving DecidableEq

/-- The experiment name of a record as print_summary resolves it
(experiments.py line 432). -/
def record_name (r : ResultRecord) : String := r.experiment.getD "unknown"

/-- One tally row of print_summary (experiments.py line 434). -/
structure Tally where
  total : Nat
  success : Nat
  failed : Nat
deriving DecidableEq

/-- First-match lookup in the tally dict, modelled as an association list
in insertion order. -/
def counts_lookup (k : String) : List (String × Tally) → Option Tally
  | [] => none
  | e :: t => if k = e.1 then some e.2 else counts_lookup k t

/-- The per-record increment of experiments.py lines 436-440. -/
def bump_tally (c : Tally) (isErr : Bool) : Tally :=
  { total := c.total + 1,
    success := if isErr then c.success else c.success + 1,
    failed := if isErr then c.failed + 1 else c.failed }

/-- In-place update of the named tally row; every other row is unchanged
(the dict mutation of experiments.py lines 436-440). -/
def bump_entry (m : List (String × Tally)) (name : String) (isErr : Bool) :
    List (String × Tally) :=
  m.map fun e => if e.1 = name then (e.1, bump_tally e.2 isErr) else e

/-- Processing of one record by the loop of experiments.py lines 431-440:
insert a zero row for an unseen experiment name, then increment. -/
def summary_step (m : List (String × Tally)) (r : ResultRecord) :
    List (String × Tally) :=
  bump_entry
    (if (counts_lookup (record_name r) m).isSome then m
     else m ++ [(record_name r, ⟨0, 0, 0⟩)])
    (record_name r) r.error.isSome

/-- The experiment_counts dict built by print_summary over the accumulated
records (experiments.py lines 429-440). -/
def experiment_counts (rs : List ResultRecord) : List (String × Tally) :=
  rs.foldl summary_step []

/-- The tally the specification describes for one experiment name: total
counts the records of that experiment, failed those carrying an error
field, success the rest.  Stated with countP, independently of the fold,
so that their agreement is a theorem. -/
def tally_of (rs : List ResultRecord) (name : String) : Tally :=
  { total := rs.countP fun r => record_name r == name,
    success := rs.countP fun r => record_name r == name && !r.error.isSome,
    failed := rs.countP fun r => record_name r == name && r.error.isSome }

/-- A minimal successful response body used by concrete scenarios. -/
def ok_response : RawResponse :=
  { output := some "ok", text := none, content := none, usage := [] }

/-- A successful response body carrying the alternate token-count naming
from the specification's example. -/
def alt_usage_response : RawResponse :=
  { output := some "hi", text := none, content := none,
    usage := [("input_tokens", 10), ("output_tokens", 5)] }

/-- A concrete request used by the retry and envelope scenarios. -/
def sample_request : CompletionRequest :=
  { model := "openai/gpt-4o-mini",
    messages := [{ role := some "user", content := some "Say hello" }],
    temperature := q710,
    max_tokens := none,
    top_p := none,
    stream := false }

/-- A transport whose first two attempts fail with a network-level error
and whose third attempt succeeds - the retry scenario of the
specification. -/
def fails_twice_transport : Transport := fun _ attempt =>
  if attempt ≤ 2 then .error (.requestError "connection refused")
  else .ok (ok_response, 1)

/-- A transport that always succeeds. -/
def ok_transport : Transport := fun _ _ => .ok (ok_response, 1)

/-- A transport that always fails with a network-level error. -/
def refuse_transport : Transport := fun _ _ => .error (.requestError "boom")

/-- A transport that fails with an HTTP 500 exactly on the call whose
payload carries temperature 0.5, and succeeds on every other call. -/
def temp_half_fails : Transport := fun p _ =>
  match dict_lookup "temperature" p with
  | some (.rat q) =>
    if q = qhalf then .error (.statusError 500 "Internal Server Error" none)
    else .ok (ok_response, 1)
  | _ => .ok (ok_response, 1)

/-- The specification's summarize example: three successes and two
failures, all for experiment x. -/
def example_records : List ResultRecord :=
  [⟨some "x", none⟩, ⟨some "x", none⟩, ⟨some "x", some "HTTP 500: boom"⟩,
   ⟨some "x", none⟩, ⟨some "x", some "HTTP 429: slow down"⟩]

theorem pySplit_ne_nil (sep : Char) (l : List Char) : pySplit sep l ≠ [] := by
  cases l with
  | nil => simp [pySplit]
  | cons c rest =>
    simp only [pySplit]
    split
    · simp
    · split <;> simp

theorem pySplit_of_not_mem {sep : Char} {l : List Char} (h : sep ∉ l) :
    pySplit sep l = [l] := by
  induction l with
  | nil => rfl
  | cons c rest ih =>
    simp only [List.mem_cons, not_or] at h
    obtain ⟨h1, h2⟩ := h
    simp only [pySplit]
    rw [if_neg fun e => h1 e.symm, ih h2]

theorem pySplit_eq_singleton {sep : Char} {l h0 : List Char}
    (h : pySplit sep l = [h0]) : sep ∉ l ∧ l = h0 := by
  induction l generalizing h0 with
  | nil =>
    simp only [pySplit, List.cons.injEq] at h
    exact ⟨by simp, h.1⟩
  | cons c rest ih =>
    simp only [pySplit] at h
    by_cases hc : c = sep
    · rw [if_pos hc] at h
      simp only [List.cons.injEq] at h
      exact absurd h.2 (pySplit_ne_nil sep rest)
    · rw [if_neg hc] at h
      cases hsp : pySplit sep rest with
      | nil => exact absurd hsp (pySplit_ne_nil sep rest)
      | cons h2 t2 =>
        rw [hsp] at h
        simp only [List.cons.injEq] at h
        obtain ⟨hh, ht⟩ := h
        subst ht
        obtain ⟨hmem, hrest⟩ := ih hsp
        refine ⟨?_, by rw [← hh, hrest]⟩
        simp only [List.mem_cons, not_or]
        exact ⟨fun e => hc e.symm, hmem⟩

theorem pySplit_last {sep : Char} {l : List Char} (h : sep ∈ l) :
    ∃ p : List Char,
      l = p ++ sep :: (pySplit sep l).getLastD [] ∧
      sep ∉ (pySplit sep l).getLastD [] := by
  induction l with
  | nil => cases h
  | cons c rest ih =>
    by_cases hc : c = sep
    · simp only [pySplit]
      rw [if_pos hc, List.getLastD_cons]
      by_cases hr : sep ∈ rest
      · obtain ⟨p, hp, hnm⟩ := ih hr
        refine ⟨c :: p, ?_, hnm⟩
        rw [List.cons_append, ← hp]
      · rw [pySplit_of_not_mem hr, List.getLastD_cons, List.getLastD_nil]
        exact ⟨[], by rw [List.nil_append, hc], hr⟩
    · have hr : sep ∈ rest := by
        rcases List.mem_cons.mp h with he | hr
        · exact absurd he.symm hc
        · exact hr
      obtain ⟨p, hp, hnm⟩ := ih hr
      simp only [pySplit, if_neg hc]
      cases hsp : pySplit sep rest with
      | nil => exact absurd hsp (pySplit_ne_nil sep rest)
      | cons h2 t2 =>
        cases t2 with
        | nil => exact absurd hr (pySplit_eq_singleton hsp).1
        | cons t0 ts =>
          rw [hsp, List.getLastD_cons, List.getLastD_cons] at hp hnm
          simp only [List.getLastD_cons]
          exact ⟨c :: p, by rw [List.cons_append, ← hp], hnm⟩

theorem strip_model_no_slash {model : String} (h : '/' ∉ model.data) :
    strip_model model = model := by
  simp [strip_model, h]

theorem strip_model_spec {model : String} (h : '/' ∈ model.data) :
    ∃ p : List Char,
      model.data = p ++ '/' :: (strip_model model).data ∧
      '/' ∉ (strip_model model).data := by
  simp only [strip_model, if_pos h]
  exact pySplit_last h

theorem request_once_not_retryable {req : CompletionRequest} {t : Transport}
    {attempt : Nat} {e : PyError} (h : request_once req t attempt = .error e) :
    retryable e = false := by
  unfold request_once at h
  cases ht : t (request_payload req) attempt with
  | ok v =>
    obtain ⟨res, el⟩ := v
    rw [ht] at h
    simp at h
  | error te =>
    rw [ht] at h
    cases te <;> simp only [Except.error.injEq] at h <;> subst h <;> rfl

theorem chat_completion_eq_first (req : CompletionRequest) (t : Transport) :
    chat_completion req t = request_once req t 1 := by
  unfold chat_completion tenacity_loop
  cases h : request_once req t 1 with
  | ok r => simp
  | error e => simp [request_once_not_retryable h]

theorem counts_lookup_bump_entry (m : List (String × Tally)) (k name : String)
    (b : Bool) :
    counts_lookup name (bump_entry m k b) =
      if name = k then (counts_lookup name m).map (fun c => bump_tally c b)
      else counts_lookup name m := by
  induction m with
  | nil => simp [bump_entry, counts_lookup]
  | cons e t ih =>
    simp only [bump_entry, List.map_cons] at ih ⊢
    by_cases h2 : e.1 = k
    · rw [if_pos h2]
      by_cases h1 : name = e.1
      · simp [counts_lookup, h1, h1.trans h2, h2]
      · simp only [counts_lookup, if_neg h1, ih]
    · rw [if_neg h2]
      by_cases h1 : name = e.1
      · have hnk : ¬name = k := fun hh => h2 ((h1.symm.trans hh))
        simp [counts_lookup, h1, hnk, h2]
      · simp only [counts_lookup, if_neg h1, ih]

theorem counts_lookup_append_single (m : List (String × Tally)) (name k : String)
    (v : Tally) :
    counts_lookup name (m ++ [(k, v)]) =
      match counts_lookup name m with
      | some c => some c
      | none => if name = k then some v else none := by
  induction m with
  | nil => simp [counts_lookup]
  | cons e t ih =>
    simp only [List.cons_append, counts_lookup]
    by_cases h : name = e.1 <;> simp [h, ih]

theorem counts_lookup_summary_step (m : List (String × Tally)) (r : ResultRecord)
    (name : String) :
    counts_lookup name (summary_step m r) =
      if name = record_name r then
        some (bump_tally ((counts_lookup name m).getD ⟨0, 0, 0⟩) r.error.isSome)
      else counts_lookup name m := by
  unfold summary_step
  rw [counts_lookup_bump_entry]
  by_cases hn : name = record_name r
  · rw [if_pos hn, if_pos hn]
    by_cases hs : (counts_lookup (record_name r) m).isSome
    · rw [if_pos hs]
      obtain ⟨c, hc⟩ := Option.isSome_iff_exists.mp (hn ▸ hs)
      rw [hc]
      simp
    · rw [if_neg hs]
      have hnone : counts_lookup name m = none := by
        rw [hn]
        exact Option.not_isSome_iff_eq_none.mp hs
      rw [counts_lookup_append_single, hnone]
      simp [hn]
  · rw [if_neg hn, if_neg hn]
    by_cases hs : (counts_lookup (record_name r) m).isSome
    · rw [if_pos hs]
    · rw [if_neg hs, counts_lookup_append_single]
      cases h : counts_lookup name m with
      | some c => rfl
      | none => simp [hn]

theorem experiment_counts_go (rs : List ResultRecord) :
    ∀ (m : List (String × Tally)) (name : String),
      counts_lookup name (rs.foldl summary_step m) =
        match counts_lookup name m with
        | some c => some ⟨c.total + (tally_of rs name).total,
                          c.success + (tally_of rs name).success,
                          c.failed + (tally_of rs name).failed⟩
        | none =>
          if (tally_of rs name).total = 0 then none else some (tally_of rs name) := by
  induction rs with
  | nil =>
    intro m name
    cases h : counts_lookup name m <;> simp [tally_of, h]
  | cons r rest ih =>
    intro m name
    rw [List.foldl_cons, ih, counts_lookup_summary_step]
    by_cases hn : name = record_name r
    · have hb : (record_name r == name) = true := by simp [hn]
      rw [if_pos hn]
      cases h : counts_lookup name m with
      | some c =>
        simp only [h, Option.getD_some]
        cases he : r.error with
        | none =>
          simp [tally_of, List.countP_cons, hb, bump_tally, he, Tally.mk.injEq]
          omega
        | some msg =>
          simp [tally_of, List.countP_cons, hb, bump_tally, he, Tally.mk.injEq]
          omega
      | none =>
        simp only [h, Option.getD_none]
        cases he : r.error with
        | none =>
          simp [tally_of, List.countP_cons, hb, bump_tally, he, Tally.mk.injEq]
          omega
        | some msg =>
          simp [tally_of, List.countP_cons, hb, bump_tally, he, Tally.mk.injEq]
          omega
    · have hb : (record_name r == name) = false := by
        simp only [beq_eq_false_iff_ne, ne_eq]
        exact fun e => hn e.symm
      rw [if_neg hn]
      have ht : tally_of (r :: rest) name = tally_of rest name := by
        simp [tally_of, List.countP_cons, hb]
      rw [ht]

theorem qhalf_eq : qhalf = 1 / 2 := by
  show Rat.mk' 1 2 = 1 / 2
  rw [Rat.mk'_eq_divInt, Rat.divInt_eq_div]
  norm_num

theorem q32_eq : q32 = 3 / 2 := by
  show Rat.mk' 3 2 = 3 / 2
  rw [Rat.mk'_eq_divInt, Rat.divInt_eq_div]
  norm_num

theorem q710_eq : q710 = 7 / 10 := by
  show Rat.mk' 7 10 = 7 / 10
  rw [Rat.mk'_eq_divInt, Rat.divInt_eq_div]
  norm_num

theorem msg_part_eq_spec_part (m : Message) : msg_part m = spec_part m := by
  unfold msg_part spec_part
  by_cases hc : m.content.getD "" = ""
  · simp [hc]
  · rw [if_neg hc, if_neg hc]
    cases hr : m.role with
    | none => simp
    | some s =>
      by_cases hs : s = "system"
      · simp [hs]
      · by_cases ha : s = "assistant"
        · simp [ha]
        · simp [hs, ha]

/-- Claim C4: the translated prompt is the newline-join, in input order, of
the per-message renderings - System: tag for role system, Assistant: tag
for role assistant, any other or unspecified role verbatim, empty-content
messages skipped - and a message list whose contents are all empty (the
empty list included) yields the empty string; the translation is a total
function, so nothing can be raised. -/
theorem input_text_is_spec_join (messages : List Message) :
    input_text messages = String.intercalate "\n" (messages.filterMap spec_part)
    ∧ ((∀ m ∈ messages, m.content.getD "" = "") → input_text messages = "") := by
  constructor
  · unfold input_text
    have hall : ∀ l : List Message, l.filterMap msg_part = l.filterMap spec_part := by
      intro l
      induction l with
      | nil => rfl
      | cons m t ih => simp [List.filterMap_cons, msg_part_eq_spec_part m, ih]
    rw [hall]
  · intro h
    unfold input_text
    have hnil : messages.filterMap msg_part = [] := by
      refine List.filterMap_eq_nil_iff.mpr fun m hm => ?_
      unfold msg_part
      simp [h m hm]
    rw [hnil]
    rfl

/-- Witness for claim C4 at a concrete all-empty-content message list. -/
theorem input_text_is_spec_join_witness :
    input_text [⟨some "user", some ""⟩, ⟨none, none⟩] = "" :=
  (input_text_is_spec_join [⟨some "user", some ""⟩, ⟨none, none⟩]).2 (by decide)

/-- Claim C5: the outbound payload's model field is the substring of the
model identifier after its last slash (unchanged when it has no slash);
model, input and temperature are always present; max_output_tokens, top_p
and stream are present exactly when provided (stream only when true, its
default), and omitted - no null entry - otherwise. -/
theorem payload_fields (model : String) (messages : List Message)
    (temperature : ℚ) (max_tokens : Option Nat) (top_p : Option ℚ) (stream : Bool) :
    dict_lookup "model" (payload model messages temperature max_tokens top_p stream)
        = some (.str (strip_model model))
    ∧ ('/' ∉ model.data → strip_model model = model)
    ∧ ('/' ∈ model.data →
        ∃ p : List Char, model.data = p ++ '/' :: (strip_model model).data
          ∧ '/' ∉ (strip_model model).data)
    ∧ dict_lookup "input" (payload model messages temperature max_tokens top_p stream)
        = some (.str (input_text messages))
    ∧ dict_lookup "temperature" (payload model messages temperature max_tokens top_p stream)
        = some (.rat temperature)
    ∧ dict_lookup "max_output_tokens" (payload model messages temperature max_tokens top_p stream)
        = max_tokens.map Value.nat
    ∧ dict_lookup "top_p" (payload model messages temperature max_tokens top_p stream)
        = top_p.map Value.rat
    ∧ dict_lookup "stream" (payload model messages temperature max_tokens top_p stream)
        = (if stream then some (.bool true) else none) := by
  refine ⟨?_, fun h => strip_model_no_slash h, fun h => strip_model_spec h,
    ?_, ?_, ?_, ?_, ?_⟩ <;>
    cases max_tokens <;> cases top_p <;> cases stream <;> simp [payload, dict_lookup]

/-- Witness for claim C5 at a concrete namespaced model identifier. -/
theorem payload_fields_witness :
    ∃ p : List Char,
      ("openai/gpt-4o-mini").data = p ++ '/' :: (strip_model "openai/gpt-4o-mini").data
      ∧ '/' ∉ (strip_model "openai/gpt-4o-mini").data :=
  (payload_fields "openai/gpt-4o-mini" [] 1 none none false).2.2.1 (by decide)

/-- Claim C6 counterexample: a whitespace-only - blank but not empty -
credential is accepted by construction, because the falsiness test of
client.py line 44 only rejects the empty string; so the claim that every
empty or blank credential fails with ConfigError is false as stated. -/
theorem client_init_blank_accepted :
    (∃ st, client_init (some " ") none "" default_base_url = .ok st
       ∧ st.api_key = " ")
    ∧ " " ≠ "" ∧ (" ").data.all (fun c => c.isWhitespace) = true := by
  refine ⟨⟨_, rfl, rfl⟩, by decide, by decide⟩

/-- Claim C6 as amended: construction fails with ConfigError (the
ValueError of client.py line 45) exactly when the effective credential -
the explicit argument when non-empty, else the environment-sourced value -
is the empty string; whitespace-only credentials are accepted.  The init
function is pure and takes no transport, so no network activity can happen
before the error. -/
theorem client_init_error_iff (api_key base_url : Option String)
    (env_api_key env_base_url : String) :
    (∃ e, client_init api_key base_url env_api_key env_base_url = .error e)
      ↔ py_or api_key env_api_key = "" := by
  unfold client_init
  by_cases h : py_or api_key env_api_key = "" <;> simp [h]

/-- Witness for the amended claim C6: an explicitly empty credential with
an empty environment fails. -/
theorem client_init_error_iff_witness :
    ∃ e, client_init (some "") none "" default_base_url = .error e :=
  (client_init_error_iff (some "") none "" default_base_url).mpr (by decide)

/-- Claim C1 evaluation at its failing input: against a transport whose
first two attempts fail with a network-level error and whose third attempt
would succeed, chat_completion raises APIRequestError - the specification's
RequestFailed - after a single attempt instead of succeeding on the third,
because the except-clauses of client.py lines 147-164 convert every httpx
exception into APIRequestError before the tenacity predicate of line 57
can see it, so no retry ever fires.  The second conjunct shows the third
attempt of the very same transport would have succeeded. -/
theorem retry_never_fires :
    chat_completion sample_request fails_twice_transport
      = .error (.apiRequestError "Request failed: connection refused")
    ∧ (∃ r, request_once sample_request fails_twice_transport 3 = .ok r) := by
  constructor
  · rw [chat_completion_eq_first]
    rfl
  · exact ⟨_, rfl⟩

/-- Claim C2 evaluation at its failing input: with the alternate naming
usage of input_tokens 10 and output_tokens 5, the normalizer reports
prompt_tokens 10 and completion_tokens 5, but total_tokens 0 rather than
the claimed 15, because the fallback sum of client.py line 120 reads only
the prompt_tokens and completion_tokens keys. -/
theorem alt_usage_total_zero :
    (formatted_result "m" alt_usage_response 0).usage = ⟨10, 5, 0⟩
    ∧ (formatted_result "m" alt_usage_response 0).usage.total_tokens ≠ 15 := by
  exact ⟨rfl, by decide⟩

/-- Claim C3 evaluation at its failing input: over the seven
parameter-exploration combinations, with the temperature 0.5 call raising
RequestFailed, the phase continues to the end but appends only six
records - the failed combination leaves no failure record, because the
except-branches of experiments.py lines 136-138 and 168-169 only print. -/
theorem experiment_2_drops_failures :
    experiment_2_parameter_exploration temp_half_fails
      = [⟨"temperature", 0, "ok"⟩, ⟨"temperature", 1, "ok"⟩,
         ⟨"temperature", 3 / 2, "ok"⟩, ⟨"max_tokens", 50, "ok"⟩,
         ⟨"max_tokens", 150, "ok"⟩, ⟨"max_tokens", 300, "ok"⟩]
    ∧ (experiment_2_parameter_exploration temp_half_fails).length = 6 := by
  have h : experiment_2_parameter_exploration temp_half_fails
      = [⟨"temperature", 0, "ok"⟩, ⟨"temperature", 1, "ok"⟩,
         ⟨"temperature", q32, "ok"⟩, ⟨"max_tokens", 50, "ok"⟩,
         ⟨"max_tokens", 150, "ok"⟩, ⟨"max_tokens", 300, "ok"⟩] := by decide
  rw [q32_eq] at h
  exact ⟨h, by rw [h]; rfl⟩

/-- Claim C7: the probe issues one request fixed as the greeting prompt
with at most 10 output tokens against the first configured model; its
boolean result is true exactly when the call succeeded with a non-empty
assistant content (Python returns the truthy content string itself, whose
truthiness is non-emptiness); and every exception raised by the call gives
false - the probe is a total boolean function, so nothing propagates. -/
theorem test_connection_spec (models : List String) (t : Transport) :
    (connection_request models).max_tokens = some 10
    ∧ (connection_request models).messages
        = [{ role := some "user", content := some "Say hello" }]
    ∧ (connection_request models).model = models.headD "openai/gpt-4o-mini"
    ∧ (test_connection models t = true ↔
        ∃ r, chat_completion (connection_request models) t = .ok r ∧ r.content ≠ "")
    ∧ (∀ e, chat_completion (connection_request models) t = .error e →
        test_connection models t = false) := by
  refine ⟨rfl, rfl, rfl, ?_, ?_⟩
  · unfold test_connection
    cases h : chat_completion (connection_request models) t with
    | ok r => simp [bne_iff_ne]
    | error e => simp
  · intro e he
    unfold test_connection
    rw [he]

/-- Witness for claim C7: a transport that always fails with a network
error makes the probe return false. -/
theorem test_connection_spec_witness :
    test_connection [] refuse_transport = false :=
  (test_connection_spec [] refuse_transport).2.2.2.2
    (.apiRequestError "Request failed: boom") rfl

/-- Claim C8: the summary tally maps an experiment name to the counts of
all its records, of its records without an error field, and of its records
with one; and on three successes plus two failures for experiment x it
yields the row x with total 5, success 3, failed 2. -/
theorem print_summary_tally :
    (∀ (rs : List ResultRecord) (name : String),
      counts_lookup name (experiment_counts rs)
        = (if (tally_of rs name).total = 0 then none else some (tally_of rs name)))
    ∧ experiment_counts example_records = [("x", ⟨5, 3, 2⟩)] := by
  constructor
  · intro rs name
    unfold experiment_counts
    rw [experiment_counts_go rs [] name]
    rfl
  · rfl

theorem chat_completion_ok_inv (req : CompletionRequest) (t : Transport)
    (r : FormattedResult) (h : chat_completion req t = .ok r) :
    ∃ raw elapsed, t (request_payload req) 1 = .ok (raw, elapsed)
      ∧ r = formatted_result req.model raw elapsed := by
  rw [chat_completion_eq_first] at h
  unfold request_once at h
  cases ht : t (request_payload req) 1 with
  | ok v =>
    obtain ⟨raw, el⟩ := v
    rw [ht] at h
    simp only [Except.ok.injEq] at h
    exact ⟨raw, el, rfl, h.symm⟩
  | error te =>
    rw [ht] at h
    cases te <;> simp at h

/-- Claim C9: every successful call's envelope carries the caller's
original unstripped model identifier, while the wire payload's model field
carries the stripped name; and the envelope's usage token fields always
equal the corresponding fields of its metrics object. -/
theorem result_envelope_model (req : CompletionRequest) (t : Transport)
    (r : FormattedResult) (h : chat_completion req t = .ok r) :
    r.model = req.model
    ∧ r.usage.prompt_tokens = r.metrics.prompt_tokens
    ∧ r.usage.completion_tokens = r.metrics.completion_tokens
    ∧ r.usage.total_tokens = r.metrics.total_tokens
    ∧ dict_lookup "model" (request_payload req) = some (.str (strip_model req.model)) := by
  obtain ⟨raw, el, hT, hr⟩ := chat_completion_ok_inv req t r h
  subst hr
  exact ⟨rfl, rfl, rfl, rfl, rfl⟩

/-- Witness for claim C9 at a concrete always-succeeding transport. -/
theorem result_envelope_model_witness :
    ∃ r, chat_completion sample_request ok_transport = .ok r
      ∧ r.model = "openai/gpt-4o-mini" := by
  refine ⟨_, rfl, ?_⟩
  exact ((result_envelope_model sample_request ok_transport _ rfl).1).trans rfl

/-- Claim C10 counterexample: a response body that parses as JSON (an
array) and so contains no nested error message still yields the raw-text
detail, not the claimed Unknown error text, because calling dict .get on
the parsed array raises AttributeError inside the try-block and the
blanket except of client.py line 152 falls back to the raw text. -/
theorem error_detail_json_array :
    error_detail 400 "[1, 2]" (some (.arr [.num 1, .num 2])) = "HTTP 400: [1, 2]"
    ∧ "HTTP 400: [1, 2]" ≠ "HTTP 400: Unknown error" := by
  exact ⟨rfl, by decide⟩

/-- Claim C10 as amended: when the body parses as a JSON object whose
error field is absent or is itself an object lacking a message field, the
detail is the status prefix followed by the text Unknown error; the raw
response text is used when JSON parsing fails, and also when the parsed
body or its error field is not an object (the attribute lookup then raises
and the blanket except falls back to the raw text). -/
theorem error_detail_cases (status : Nat) (text : String)
    (fields : List (String × Json)) :
    (json_lookup "error" fields = none →
      error_detail status text (some (.obj fields))
        = "HTTP " ++ toString status ++ ": Unknown error")
    ∧ (∀ efields, json_lookup "error" fields = some (.obj efields) →
        json_lookup "message" efields = none →
        error_detail status text (some (.obj fields))
          = "HTTP " ++ toString status ++ ": Unknown error")
    ∧ error_detail status text none = "HTTP " ++ toString status ++ ": " ++ text
    ∧ (∀ j, json_lookup "error" fields = some j → j.isObjB = false →
        error_detail status text (some (.obj fields))
          = "HTTP " ++ toString status ++ ": " ++ text)
    ∧ (∀ j, Json.isObjB j = false →
        error_detail status text (some j) = "HTTP " ++ toString status ++ ": " ++ text) := by
  refine ⟨?_, ?_, rfl, ?_, ?_⟩
  · intro h
    simp only [error_detail, error_detail_try, h, json_lookup, pyStr, Option.getD_none]
    rw [String.append_assoc]
    rfl
  · intro efields h hm
    simp only [error_detail, error_detail_try, h, hm, json_lookup, pyStr, Option.getD_none,
      Option.getD_some]
    rw [String.append_assoc]
    rfl
  · intro j h hobj
    cases j <;> simp_all [error_detail, error_detail_try, Json.isObjB]
  · intro j hobj
    cases j <;> simp_all [error_detail, error_detail_try, Json.isObjB]

/-- Witness for the amended claim C10: an object body without an error
field yields the Unknown error detail. -/
theorem error_detail_cases_witness :
    error_detail 404 "not found" (some (.obj []))
      = "HTTP " ++ toString 404 ++ ": Unknown error" :=
  (error_detail_cases 404 "not found" []).1 rfl

end ConcentrateLab
